import Mathlib

/-!
Verification development for the SparkySIEM dual-layer file watcher.

The embedding below is a shallow model of the C++ sources:

* `src/FileMonitor.cpp` / `src/FileMonitor.h`: the per-file watcher.
  `FileMonitor::formatMessage` (lines 142-147) is modelled by
  `formatMessage`; the events emitted by `FileMonitor::monitor`
  (lines 173-212) are modelled by `initMsg`, `initFileOpenMsg`,
  `errorOpenMsg`, `modifyMsg` and `closeMsg`; the per-batch inner
  `for` loop over inotify events (lines 189-208) is modelled by the
  step function `forStep` and its fuelled iteration `processFor`;
  the outer `while (true)` loop head (line 182) is modelled by
  `monitorLoopGuard` / `loopExitsWithin`; the statements after the
  loop (lines 210-211) by `monitorAfterLoop`;
  `FileMonitor::sendToKafka` (lines 226-236) by `sendToKafka`, and
  the try/catch around the per-line MODIFY send (lines 200-204) by
  `sendModifyGuarded`.  The two unguarded lifecycle sends at the top
  of `monitor` (lines 174 and 180) are modelled by `monitorInitPhase`.

* `src/FilesMonitor.cpp` / `src/FilesMonitor.h`: the supervisor.
  The watcher table `fileMonitors` is modelled by `SupState` (an
  association list from path to a watcher id, plus a fresh-id
  counter); `FilesMonitor::handleFile` (lines 108-112) by
  `handleFile`, which also records the side effects it performs as a
  `SupAction` trace; one pass of the body of
  `FilesMonitor::monitorLoop` (lines 78-97) by `tick` (path
  expansion via `expandTargets`, then `handleFiles`, then
  `cleanupDeletedFiles`); iterated ticks by `runTicks`.
  `FilesMonitor::cleanupDeletedFiles` (lines 124-132) is modelled by
  `cleanupDeletedFiles`.

File contents are abstracted as the list of lines `std::getline`
yields when the file is read from the beginning, and the filesystem
as boolean-valued oracles, both held fixed during a tick or a read
(the claims assume no concurrent writer).  Exceptions are modelled
with `Except`: a value `Except.error e` reaching the boundary of a
modelled function corresponds to a C++ exception propagating out of
the corresponding C++ function.
-/

namespace SparkySIEM

/-- One broker message, kept as its four data fields exactly as they are
passed to `FileMonitor::formatMessage`. -/
structure KMsg where
  filePath : String
  message : String
  kafkaTopic : String
  type : String
  deriving DecidableEq

/-- FileMonitor::formatMessage (FileMonitor.cpp:142-147).  The C++ function
generates the timestamp internally with `getCurrentTimestamp`; the
timestamp is nondeterministic real time, so it is passed here as the
final explicit argument.  The body is the string concatenation of
line 145, verbatim. -/
def formatMessage (filePath line kafkaTopic messageType timestamp : String) : String :=
  "\x7b\"timestamp\": \"" ++ timestamp ++ "\", \"filePath\": \"" ++ filePath ++
    "\", \"kafkaTopic\": \"" ++ kafkaTopic ++ "\", \"message\": \"" ++ line ++
    "\", \"type\": \"" ++ messageType ++ "\"\x7d"

/-- Rendering of a message record through `formatMessage`. -/
def KMsg.render (m : KMsg) (timestamp : String) : String :=
  formatMessage m.filePath m.message m.kafkaTopic m.type timestamp

/-- The INIT lifecycle event (FileMonitor.cpp:174). -/
def initMsg (p t : String) : KMsg :=
  { filePath := p, message := " ", kafkaTopic := t, type := "INIT" }

/-- The file-open lifecycle event sent unconditionally before the loop
(FileMonitor.cpp:180); its wire type string is "INIT - FILE OPEN". -/
def initFileOpenMsg (p t : String) : KMsg :=
  { filePath := p, message := " ", kafkaTopic := t, type := "INIT - FILE OPEN" }

/-- The failed-open lifecycle event (FileMonitor.cpp:195); its wire type
string is "ERROR - FILE OPEN". -/
def errorOpenMsg (p t : String) : KMsg :=
  { filePath := p, message := " ", kafkaTopic := t, type := "ERROR - FILE OPEN" }

/-- The CLOSE lifecycle event in the code after the loop (FileMonitor.cpp:210). -/
def closeMsg (p t : String) : KMsg :=
  { filePath := p, message := " ", kafkaTopic := t, type := "CLOSE" }

/-- One per-line MODIFY event (FileMonitor.cpp:201). -/
def modifyMsg (p t line : String) : KMsg :=
  { filePath := p, message := line, kafkaTopic := t, type := "MODIFY" }

/-- One inotify event record in the notification buffer; only the test
`event->mask & IN_MODIFY` (FileMonitor.cpp:191) matters to the loop. -/
structure INotifyEvent where
  isModify : Bool
  deriving DecidableEq

/-- State of the watched file during one read, held fixed (the claims
assume no concurrent writer): whether `std::ifstream(filePath)` opens
(FileMonitor.cpp:192-193), and the lines `std::getline` yields reading
from the beginning (FileMonitor.cpp:198-199). -/
structure FileState where
  opens : Bool
  lines : List String
  deriving DecidableEq

/-- One iteration of the inner `for` loop over the event buffer
(FileMonitor.cpp:189-208).  `none` means the loop condition `i < length`
failed and the loop exited.  A non-modify event emits nothing and
advances.  A modify event with a successful open emits one MODIFY
message per line of the file, in file order, and advances.  A modify
event with a failed open emits one ERROR - FILE OPEN message and then
executes `continue`, which in the source jumps to the (empty) increment
clause of the `for` head and so does NOT advance `i`: the same event
list is returned unchanged. -/
def forStep (fs : FileState) (p t : String) :
    List INotifyEvent → Option (List KMsg × List INotifyEvent)
  | [] => none
  | e :: rest =>
    if e.isModify then
      if fs.opens then some (fs.lines.map (modifyMsg p t), rest)
      else some ([errorOpenMsg p t], e :: rest)
    else some ([], rest)

/-- Fuelled iteration of `forStep`: the messages emitted during the first
`n` iterations of the inner `for` loop, with the event list remaining to
be processed. -/
def processFor (fs : FileState) (p t : String) :
    Nat → List INotifyEvent → List KMsg × List INotifyEvent
  | 0, evs => ([], evs)
  | n + 1, evs =>
    match forStep fs p t evs with
    | none => ([], evs)
    | some (ms, evs1) =>
      let r := processFor fs p t n evs1
      (ms ++ r.1, r.2)

/-- The messages emitted by `FileMonitor::monitor` (FileMonitor.cpp:173-212)
while it processes a sequence of notification batches: the two
unconditional lifecycle events of lines 174 and 180, then for each batch
the messages of the first `fuel` iterations of the inner loop.  The CLOSE
event of line 210 does not appear here: it sits after the `while (true)`
loop (see `monitorLoopGuard` and `monitorAfterLoop`). -/
def monitorTrace (fs : FileState) (p t : String) (fuel : Nat)
    (batches : List (List INotifyEvent)) : List KMsg :=
  initMsg p t :: initFileOpenMsg p t ::
    batches.flatMap (fun b => (processFor fs p t fuel b).1)

/-- The loop condition of the monitoring loop, `while (true)`
(FileMonitor.cpp:182).  It reads no state and is the constant `true`;
the class has no stop flag (FileMonitor.h:100-106). -/
def monitorLoopGuard {σ : Type} : σ → Bool := fun _ => true

/-- Whether a while loop with condition `monitorLoopGuard` and body
`body` (the loop body contains no `break` and no `return`, so it is a
total state transformer here) exits within `n` iterations. -/
def loopExitsWithin {σ : Type} (body : σ → σ) : Nat → σ → Bool
  | 0, _ => false
  | n + 1, s => if monitorLoopGuard s then loopExitsWithin body n (body s) else true

/-- The code after the monitoring loop (FileMonitor.cpp:210-211): emit one
CLOSE event, then `producer->flush(1000)`, a flush with a bounded
timeout of 1000 milliseconds. -/
def monitorAfterLoop (p t : String) : List KMsg × Nat := ([closeMsg p t], 1000)

/-- Outcome of one `producer->produce` call (FileMonitor.cpp:227-231),
as seen through the returned `RdKafka::ErrorCode`. -/
inductive SendOutcome where
  | accepted : SendOutcome
  | rejected : String → SendOutcome
  deriving DecidableEq

/-- FileMonitor::sendToKafka (FileMonitor.cpp:226-236): on a non-OK
produce result it throws `std::runtime_error("Failed to produce message: "
+ err2str(resp))`, modelled as `Except.error`; otherwise it polls and
returns. -/
def sendToKafka (message : String) (o : SendOutcome) : Except String String :=
  match o with
  | SendOutcome.accepted => Except.ok message
  | SendOutcome.rejected reason =>
      Except.error ("Failed to produce message: " ++ reason)

/-- The per-line MODIFY send as performed inside the loop
(FileMonitor.cpp:200-204): `sendToKafka` wrapped in a try/catch whose
handler only logs to `std::cerr`, so no failure propagates. -/
def sendModifyGuarded (message : String) (o : SendOutcome) : Except String String :=
  match sendToKafka message o with
  | Except.ok m => Except.ok m
  | Except.error _ => Except.ok message

/-- Truth value of an `Except` being a success. -/
def exceptOk {α : Type} : Except String α → Bool
  | Except.ok _ => true
  | Except.error _ => false

/-- The first two sends of `FileMonitor::monitor` (FileMonitor.cpp:174 and
180).  Neither call is wrapped in a try/catch in the source, so an
`Except.error` from `sendToKafka` propagates to the result: the
exception leaves `monitor()` itself.  `o1` and `o2` are the produce
outcomes of the two calls; `ts` the timestamp. -/
def monitorInitPhase (p t ts : String) (o1 o2 : SendOutcome) :
    Except String (List String) :=
  match sendToKafka (formatMessage p " " t "INIT" ts) o1 with
  | Except.error e => Except.error e
  | Except.ok m1 =>
    match sendToKafka (formatMessage p " " t "INIT - FILE OPEN" ts) o2 with
    | Except.error e => Except.error e
    | Except.ok m2 => Except.ok [m1, m2]

/-- Side effects the supervisor could perform on behalf of one candidate
path.  `FilesMonitor::handleFile` (FilesMonitor.cpp:108-112) performs
only `constructWatcher` (the `std::make_unique<FileMonitor>` call); the
other two constructors exist so that their absence from every emitted
trace is a statement about the code: nowhere in `FilesMonitor` is a
`std::thread` created for a watcher, and `FileMonitor::monitor` is never
called on a constructed watcher. -/
inductive SupAction where
  | constructWatcher : String → SupAction
  | spawnThread : String → SupAction
  | invokeMonitor : String → SupAction
  deriving DecidableEq

/-- Whether an action is a bare watcher construction. -/
def SupAction.isConstruct : SupAction → Bool
  | SupAction.constructWatcher _ => true
  | _ => false

/-- The supervisor state: the watcher table `fileMonitors` (an
association list from file path to the identity of the `FileMonitor`
object stored there) and a counter supplying fresh identities to newly
constructed watchers. -/
structure SupState where
  table : List (String × Nat)
  nextId : Nat
  deriving DecidableEq

/-- The supervisor state at construction: an empty table
(FilesMonitor.cpp:50-53). -/
def initialSup : SupState := { table := [], nextId := 0 }

/-- The key set of the watcher table. -/
def tableKeys (t : List (String × Nat)) : List String := t.map Prod.fst

/-- Lookup in the watcher table, `fileMonitors.find(filePath)`
(FilesMonitor.cpp:109). -/
def lookupPath : List (String × Nat) → String → Option Nat
  | [], _ => none
  | (q, v) :: rest, p => if q = p then some v else lookupPath rest p

/-- Filesystem snapshot for one tick: `fs::exists`, `fs::is_directory`
and `fs::directory_iterator` (FilesMonitor.cpp:84-87, 126). -/
structure FS where
  existsOnDisk : String → Bool
  isDir : String → Bool
  dirEntries : String → List String

/-- FilesMonitor::handleFile (FilesMonitor.cpp:108-112): if the path is
already a key of the table the body does nothing; otherwise it
constructs a `FileMonitor` and inserts it.  The `FileMonitor`
constructor (FileMonitor.cpp:63-86) throws `std::runtime_error` when
Kafka or inotify setup fails; `ctorFails` is the oracle saying for which
paths it throws.  `handleFile` contains no try/catch, so the throw
propagates as `Except.error`.  On a successful construction the trace
records exactly the `constructWatcher` effect: the source spawns no
thread and never calls `monitor()` here. -/
def handleFile (ctorFails : String → Bool) (s : SupState) (p : String) :
    Except String (SupState × List SupAction) :=
  match lookupPath s.table p with
  | some _ => Except.ok (s, [])
  | none =>
    if ctorFails p then
      Except.error ("FileMonitor construction failed for " ++ p)
    else
      Except.ok ({ table := (p, s.nextId) :: s.table, nextId := s.nextId + 1 },
        [SupAction.constructWatcher p])

/-- The action trace of one `handleFile` call (empty when it throws). -/
def handleFileActions (ctorFails : String → Bool) (s : SupState) (p : String) :
    List SupAction :=
  match handleFile ctorFails s p with
  | Except.ok r => r.2
  | Except.error _ => []

/-- Sequential processing of the candidate paths of one tick
(the nested loops of FilesMonitor.cpp:83-93 call `handleFile` once per
candidate, in order); an exception from any call aborts the rest. -/
def handleFiles (ctorFails : String → Bool) :
    SupState → List String → Except String (SupState × List SupAction)
  | s, [] => Except.ok (s, [])
  | s, p :: ps =>
    match handleFile ctorFails s p with
    | Except.error e => Except.error e
    | Except.ok r =>
      match handleFiles ctorFails r.1 ps with
      | Except.error e => Except.error e
      | Except.ok r2 => Except.ok (r2.1, r.2 ++ r2.2)

/-- FilesMonitor::cleanupDeletedFiles (FilesMonitor.cpp:124-132): erase
every table entry whose path no longer exists on disk; keep the rest. -/
def cleanupDeletedFiles (fs : FS) (t : List (String × Nat)) : List (String × Nat) :=
  t.filter (fun e => fs.existsOnDisk e.1)

/-- Path expansion of one tick (FilesMonitor.cpp:83-92): an existing
directory contributes its immediate entries, an existing file
contributes itself, a missing path contributes nothing. -/
def expandTargets (fs : FS) (paths : List String) : List String :=
  paths.flatMap (fun p =>
    if fs.existsOnDisk p then
      if fs.isDir p then fs.dirEntries p else [p]
    else [])

/-- One pass of the body of FilesMonitor::monitorLoop
(FilesMonitor.cpp:79-96), the per-interval tick: expand the configured
paths, run `handleFile` on each candidate, then sweep the table with
`cleanupDeletedFiles`.  An exception from a watcher construction
propagates out (there is no try/catch in `monitorLoop` either), skipping
the sweep. -/
def tick (ctorFails : String → Bool) (fs : FS) (paths : List String)
    (s : SupState) : Except String (SupState × List SupAction) :=
  match handleFiles ctorFails s (expandTargets fs paths) with
  | Except.error e => Except.error e
  | Except.ok r =>
      Except.ok ({ table := cleanupDeletedFiles fs r.1.table, nextId := r.1.nextId }, r.2)

/-- Iterated ticks of the supervisor loop, one filesystem snapshot and
construction oracle per tick.  An exception from any tick terminates the
monitoring thread, so iteration stops. -/
def runTicks (paths : List String) :
    List ((String → Bool) × FS) → SupState → Except String SupState
  | [], s => Except.ok s
  | i :: rest, s =>
    match tick i.1 i.2 paths s with
    | Except.error e => Except.error e
    | Except.ok r => runTicks paths rest r.1

/-- Construction oracle under which no `FileMonitor` constructor throws. -/
def noCtorFail : String → Bool := fun _ => false

/-- A filesystem holding exactly the plain file "a.txt". -/
def fsSingle : FS :=
  { existsOnDisk := fun p => p == "a.txt", isDir := fun _ => false,
    dirEntries := fun _ => [] }

/-- A filesystem holding exactly the plain files "bad" and "good". -/
def fsBadGood : FS :=
  { existsOnDisk := fun p => p == "bad" || p == "good", isDir := fun _ => false,
    dirEntries := fun _ => [] }

/-- Construction oracle under which only the watcher for "bad" throws. -/
def ctorFailsBad : String → Bool := fun p => p == "bad"

/-- A supervisor state already tracking "a.txt". -/
def sOne : SupState := { table := [("a.txt", 0)], nextId := 1 }

/-- A supervisor state tracking "gone" (no longer on disk) and "a.txt". -/
def sGone : SupState := { table := [("gone", 5), ("a.txt", 0)], nextId := 6 }

/-- The five wire type strings the watcher code can place in the `type`
field (FileMonitor.cpp:174, 180, 195, 201, 210). -/
def wireTypes : List String :=
  ["INIT", "INIT - FILE OPEN", "MODIFY", "ERROR - FILE OPEN", "CLOSE"]

/- ## Helper lemmas -/

theorem lookupPath_mem (t : List (String × Nat)) (p : String)
    (h : p ∈ tableKeys t) : ∃ v, lookupPath t p = some v := by
  induction t with
  | nil => simp [tableKeys] at h
  | cons e rest ih =>
    obtain ⟨q, v⟩ := e
    by_cases hq : q = p
    · exact ⟨v, by simp [lookupPath, hq]⟩
    · have hrest : p ∈ tableKeys rest := by
        simp [tableKeys] at h ⊢
        rcases h with h | h
        · exact absurd h.symm hq
        · exact h
      rcases ih hrest with ⟨w, hw⟩
      exact ⟨w, by simp [lookupPath, hq, hw]⟩

theorem lookupPath_none (t : List (String × Nat)) (p : String)
    (h : lookupPath t p = none) : p ∉ tableKeys t := by
  intro hmem
  rcases lookupPath_mem t p hmem with ⟨v, hv⟩
  rw [hv] at h
  cases h

theorem handleFile_ok (cf : String → Bool) (s s1 : SupState) (p : String)
    (a1 : List SupAction) (h : handleFile cf s p = Except.ok (s1, a1)) :
    ((∃ v, lookupPath s.table p = some v) ∧ s1 = s ∧ a1 = []) ∨
    (lookupPath s.table p = none ∧ cf p = false ∧
      s1 = { table := (p, s.nextId) :: s.table, nextId := s.nextId + 1 } ∧
      a1 = [SupAction.constructWatcher p]) := by
  rw [handleFile] at h
  split at h
  next v heq =>
    injection h with h
    injection h with hs ha
    exact Or.inl ⟨⟨v, heq⟩, hs.symm, ha.symm⟩
  next heq =>
    split at h
    · cases h
    next hc =>
      injection h with h
      injection h with hs ha
      exact Or.inr ⟨heq, by simpa using hc, hs.symm, ha.symm⟩

theorem handleFiles_props (cf : String → Bool) :
    ∀ (cands : List String) (s s' : SupState) (acts : List SupAction),
      handleFiles cf s cands = Except.ok (s', acts) →
      (∀ p, p ∈ tableKeys s.table →
        lookupPath s'.table p = lookupPath s.table p ∧
          p ∈ tableKeys s'.table ∧
          SupAction.constructWatcher p ∉ acts) ∧
      ((tableKeys s.table).Nodup → (tableKeys s'.table).Nodup) := by
  intro cands
  induction cands with
  | nil =>
    intro s s' acts h
    rw [handleFiles] at h
    injection h with h
    injection h with hs ha
    subst hs
    subst ha
    exact ⟨fun p hp => ⟨rfl, hp, by simp⟩, id⟩
  | cons q ps ih =>
    intro s s' acts h
    rw [handleFiles] at h
    split at h
    · cases h
    next r heq =>
      split at h
      · cases h
      next r2 heq2 =>
        injection h with h
        injection h with hs ha
        subst hs
        subst ha
        obtain ⟨s1, a1⟩ := r
        obtain ⟨s2, a2⟩ := r2
        rcases handleFile_ok cf s s1 q a1 heq with
          ⟨⟨v, hv⟩, hs1, ha1⟩ | ⟨hnone, hc, hs1, ha1⟩
        · subst ha1
          have hrec := ih s1 s2 a2 heq2
          rw [hs1] at hrec
          refine ⟨fun p hp => ?_, hrec.2⟩
          have hp3 := hrec.1 p hp
          exact ⟨hp3.1, hp3.2.1, by simpa using hp3.2.2⟩
        · subst hs1
          subst ha1
          have hqs : q ∉ tableKeys s.table := lookupPath_none s.table q hnone
          have hrec := ih _ s2 a2 heq2
          constructor
          · intro p hp
            have hne : q ≠ p := fun hqp => hqs (hqp ▸ hp)
            have hp1 : p ∈ tableKeys
                (({ table := (q, s.nextId) :: s.table, nextId := s.nextId + 1 } :
                  SupState).table) := by
              simp [tableKeys] at hp ⊢
              exact Or.inr hp
            have hp3 := hrec.1 p hp1
            refine ⟨?_, hp3.2.1, ?_⟩
            · rw [hp3.1]
              simp [lookupPath, hne]
            · intro hmem
              rcases List.mem_append.mp hmem with hmem | hmem
              · simp at hmem
                exact hne hmem.symm
              · exact hp3.2.2 hmem
          · intro hn
            refine hrec.2 ?_
            refine List.nodup_cons.mpr ?_
            exact ⟨by simpa [tableKeys] using hqs, hn⟩

theorem cleanup_not_mem (fs : FS) (t : List (String × Nat)) (p : String)
    (h : fs.existsOnDisk p = false) :
    p ∉ tableKeys (cleanupDeletedFiles fs t) := by
  intro hmem
  rcases List.mem_map.mp hmem with ⟨e, he, hep⟩
  have hf : fs.existsOnDisk e.1 = true := by
    simpa using (List.mem_filter.mp he).2
  rw [hep] at hf
  rw [h] at hf
  cases hf

theorem cleanup_lookup (fs : FS) (t : List (String × Nat)) (p : String)
    (h : fs.existsOnDisk p = true) :
    lookupPath (cleanupDeletedFiles fs t) p = lookupPath t p := by
  induction t with
  | nil => rfl
  | cons e rest ih =>
    obtain ⟨q, v⟩ := e
    by_cases hq : q = p
    · subst hq
      simp [cleanupDeletedFiles, List.filter_cons, h, lookupPath]
    · rcases Bool.eq_false_or_eq_true (fs.existsOnDisk q) with hf | hf
      · simpa [cleanupDeletedFiles, List.filter_cons, hf, lookupPath, hq] using ih
      · simpa [cleanupDeletedFiles, List.filter_cons, hf, lookupPath, hq] using ih

theorem cleanup_nodup (fs : FS) (t : List (String × Nat))
    (h : (tableKeys t).Nodup) : (tableKeys (cleanupDeletedFiles fs t)).Nodup := by
  have hsub : List.Sublist (cleanupDeletedFiles fs t) t := List.filter_sublist t
  exact h.sublist (hsub.map Prod.fst)

theorem tick_ok_parts (cf : String → Bool) (fs : FS) (paths : List String)
    (s s' : SupState) (acts : List SupAction)
    (h : tick cf fs paths s = Except.ok (s', acts)) :
    ∃ s2 : SupState,
      handleFiles cf s (expandTargets fs paths) = Except.ok (s2, acts) ∧
        s'.table = cleanupDeletedFiles fs s2.table := by
  rw [tick] at h
  split at h
  · cases h
  next r heq =>
    injection h with h
    injection h with hs ha
    subst ha
    refine ⟨r.1, ?_, ?_⟩
    · rw [heq]
    · rw [← hs]

theorem tick_nodup (cf : String → Bool) (fs : FS) (paths : List String)
    (s s' : SupState) (acts : List SupAction)
    (h : tick cf fs paths s = Except.ok (s', acts))
    (hn : (tableKeys s.table).Nodup) : (tableKeys s'.table).Nodup := by
  rcases tick_ok_parts cf fs paths s s' acts h with ⟨s2, h2, ht⟩
  rw [ht]
  exact cleanup_nodup fs s2.table ((handleFiles_props cf _ s s2 acts h2).2 hn)

theorem runTicks_nodup (paths : List String) :
    ∀ (inputs : List ((String → Bool) × FS)) (s s' : SupState),
      runTicks paths inputs s = Except.ok s' →
      (tableKeys s.table).Nodup → (tableKeys s'.table).Nodup := by
  intro inputs
  induction inputs with
  | nil =>
    intro s s' h hn
    rw [runTicks] at h
    injection h with h
    subst h
    exact hn
  | cons i rest ih =>
    intro s s' h hn
    rw [runTicks] at h
    split at h
    · cases h
    next r heq =>
      exact ih r.1 s' h (tick_nodup i.1 i.2 paths s r.1 r.2 (by rw [heq]) hn)

theorem processFor_mem (fs : FileState) (p t : String) :
    ∀ (n : Nat) (evs : List INotifyEvent) (m : KMsg),
      m ∈ (processFor fs p t n evs).1 →
      m = errorOpenMsg p t ∨ ∃ l, l ∈ fs.lines ∧ m = modifyMsg p t l := by
  intro n
  induction n with
  | zero =>
    intro evs m hm
    simp [processFor] at hm
  | succ k ih =>
    intro evs m hm
    cases evs with
    | nil => simp [processFor, forStep] at hm
    | cons e rest =>
      cases hme : e.isModify with
      | false =>
        rw [processFor] at hm
        simp [forStep, hme] at hm
        exact ih rest m hm
      | true =>
        cases ho : fs.opens with
        | false =>
          rw [processFor] at hm
          simp [forStep, hme, ho] at hm
          rcases hm with hm | hm
          · exact Or.inl hm
          · exact ih (e :: rest) m hm
        | true =>
          rw [processFor] at hm
          simp [forStep, hme, ho] at hm
          rcases hm with ⟨l, hl, hml⟩ | hm
          · exact Or.inr ⟨l, hl, hml.symm⟩
          · exact ih rest m hm

theorem monitorTrace_mem (fs : FileState) (p t : String) (fuel : Nat)
    (batches : List (List INotifyEvent)) (m : KMsg)
    (hm : m ∈ monitorTrace fs p t fuel batches) :
    m = initMsg p t ∨ m = initFileOpenMsg p t ∨ m = errorOpenMsg p t ∨
      ∃ l, m = modifyMsg p t l := by
  simp [monitorTrace] at hm
  rcases hm with rfl | rfl | ⟨b, _, hmb⟩
  · exact Or.inl rfl
  · exact Or.inr (Or.inl rfl)
  · rcases processFor_mem fs p t fuel b m hmb with h | ⟨l, _, hml⟩
    · exact Or.inr (Or.inr (Or.inl h))
    · exact Or.inr (Or.inr (Or.inr ⟨l, hml⟩))

/- ## Claim theorems -/

/-- C1: for every modification notification whose file open succeeds, the
inner loop emits exactly one MODIFY event per line of the file, the
lines in file order and in full (the file is re-read from the beginning,
not just a delta), and batch processing terminates after the last
notification: with fuel equal to the batch length, every notification is
consumed and each modification notification contributes exactly
`lines.map (modifyMsg p t)`, the entire current contents in order. -/
theorem c1_modify_emits_full_contents (lines : List String) (p t : String) :
    ∀ evs : List INotifyEvent,
      processFor { opens := true, lines := lines } p t evs.length evs =
        (evs.flatMap (fun e =>
          if e.isModify then lines.map (modifyMsg p t) else []), []) := by
  intro evs
  induction evs with
  | nil => rfl
  | cons e rest ih =>
    cases hm : e.isModify with
    | false => simp [processFor, forStep, hm, ih]
    | true => simp [processFor, forStep, hm, ih]

/-- C2: the supervisor never starts the watchers it constructs.  A tick
that discovers the new file "a.txt" merely constructs the watcher object
and inserts it into the table; its action trace contains no
`spawnThread` and no `invokeMonitor`, and in general every action
`handleFile` ever emits is a bare `constructWatcher`.  This contradicts
the claim that a thread of control invoking the blocking monitor loop is
spawned and tracked per inserted path. -/
theorem c2_watcher_threads_not_spawned :
    tick noCtorFail fsSingle ["a.txt"] initialSup =
      Except.ok ({ table := [("a.txt", 0)], nextId := 1 },
        [SupAction.constructWatcher "a.txt"]) ∧
    ∀ (cf : String → Bool) (s : SupState) (p : String),
      (handleFileActions cf s p).all SupAction.isConstruct = true := by
  refine ⟨rfl, ?_⟩
  intro cf s p
  cases h : lookupPath s.table p with
  | some v => simp [handleFileActions, handleFile, h]
  | none =>
    cases hc : cf p with
    | true => simp [handleFileActions, handleFile, h, hc]
    | false => simp [handleFileActions, handleFile, h, hc, SupAction.isConstruct]

/-- C3: a rejected produce during the INIT lifecycle send escapes the
watcher as an exception (there is no try/catch around the lifecycle
sends in `monitor`), terminating its monitoring operation — contrary to
the claim; only the per-line MODIFY send is guarded, and that one indeed
never propagates a failure. -/
theorem c3_lifecycle_send_failure_escapes :
    monitorInitPhase "/var/log/a" "topic" "ts"
        (SendOutcome.rejected "queue full") SendOutcome.accepted =
      Except.error "Failed to produce message: queue full" ∧
    ∀ (m : String) (o : SendOutcome), exceptOk (sendModifyGuarded m o) = true := by
  refine ⟨rfl, ?_⟩
  intro m o
  cases o <;> rfl

/-- C4: when the file open fails for a modification notification, the
inner loop does not advance: the `continue` jumps to the empty increment
clause of the `for` head, skipping `i += ...`.  For every amount of fuel
`n`, processing a batch headed by such a notification emits `n`
ERROR - FILE OPEN events and leaves the batch unconsumed — not exactly
one event followed by advancing to the next notification. -/
theorem c4_failed_open_spins (n : Nat) (lines : List String) (p t : String)
    (rest : List INotifyEvent) :
    processFor { opens := false, lines := lines } p t n
        ({ isModify := true } :: rest) =
      (List.replicate n (errorOpenMsg p t), { isModify := true } :: rest) := by
  induction n with
  | zero => rfl
  | succ k ih => simp [processFor, forStep, ih, List.replicate_succ]

/-- C5: a watcher construction failure aborts the whole tick.  With
candidates "bad" then "good", the constructor throw for "bad"
propagates out of the tick (no try/catch exists in `handleFile` or
`monitorLoop`) and "good" is never processed, although the very same
tick with "good" alone would have registered it. -/
theorem c5_ctor_failure_aborts_tick :
    tick ctorFailsBad fsBadGood ["bad", "good"] initialSup =
      Except.error "FileMonitor construction failed for bad" ∧
    tick ctorFailsBad fsBadGood ["good"] initialSup =
      Except.ok ({ table := [("good", 0)], nextId := 1 },
        [SupAction.constructWatcher "good"]) :=
  ⟨rfl, rfl⟩

/-- C6: the monitoring loop can never exit: its condition is the
constant `true` and the class has no stop flag, so for every body, every
fuel and every state the loop has not exited; consequently the CLOSE
emission and the `flush(1000)` after the loop — which do sit in the
source in the order the claim describes, as `monitorAfterLoop` shows —
are unreachable and no graceful shutdown is possible. -/
theorem c6_loop_never_exits (σ : Type) (body : σ → σ) (n : Nat) (s : σ)
    (p t : String) :
    loopExitsWithin body n s = false ∧
      monitorAfterLoop p t = ([closeMsg p t], 1000) := by
  constructor
  · induction n generalizing s with
    | zero => rfl
    | succ k ih => simp [loopExitsWithin, monitorLoopGuard, ih]
  · rfl

/-- C7: discovery is idempotent and the table never holds two
registrations for one path: `handleFile` on an already-tracked path is a
no-op that constructs nothing; a successful tick leaves the entry of an
already-tracked, still-existing candidate unchanged and emits no
`constructWatcher` for it; and after any number of successful ticks from
the initial state the table keys are pairwise distinct. -/
theorem c7_idempotent_discovery :
    (∀ (cf : String → Bool) (s : SupState) (p : String),
      p ∈ tableKeys s.table → handleFile cf s p = Except.ok (s, [])) ∧
    (∀ (cf : String → Bool) (fs : FS) (paths : List String) (s s' : SupState)
      (acts : List SupAction) (p : String),
      tick cf fs paths s = Except.ok (s', acts) → p ∈ tableKeys s.table →
      fs.existsOnDisk p = true →
      lookupPath s'.table p = lookupPath s.table p ∧
        SupAction.constructWatcher p ∉ acts) ∧
    (∀ (paths : List String) (inputs : List ((String → Bool) × FS)) (s' : SupState),
      runTicks paths inputs initialSup = Except.ok s' →
      (tableKeys s'.table).Nodup) := by
  refine ⟨?_, ?_, ?_⟩
  · intro cf s p hp
    rcases lookupPath_mem s.table p hp with ⟨v, hv⟩
    simp [handleFile, hv]
  · intro cf fs paths s s' acts p h hp hex
    rcases tick_ok_parts cf fs paths s s' acts h with ⟨s2, h2, ht⟩
    have hpres := (handleFiles_props cf _ s s2 acts h2).1 p hp
    refine ⟨?_, hpres.2.2⟩
    rw [ht, cleanup_lookup fs s2.table p hex]
    exact hpres.1
  · intro paths inputs s' h
    exact runTicks_nodup paths inputs initialSup s' h (by simp [initialSup, tableKeys])

/-- C7 witness: the theorem applied to the concrete state already
tracking "a.txt", a tick re-observing "a.txt", and one successful run of
ticks from the initial state. -/
theorem c7_idempotent_discovery_witness :
    handleFile noCtorFail sOne "a.txt" = Except.ok (sOne, []) ∧
    (lookupPath sOne.table "a.txt" = lookupPath sOne.table "a.txt" ∧
      SupAction.constructWatcher "a.txt" ∉ ([] : List SupAction)) ∧
    (tableKeys sOne.table).Nodup :=
  ⟨c7_idempotent_discovery.1 noCtorFail sOne "a.txt" (by decide),
   c7_idempotent_discovery.2.1 noCtorFail fsSingle ["a.txt"] sOne sOne []
     "a.txt" rfl (by decide) rfl,
   c7_idempotent_discovery.2.2 ["a.txt"] [(noCtorFail, fsSingle)] sOne rfl⟩

/-- C8: the sweep erases exactly the entries whose backing path no
longer exists: after `cleanupDeletedFiles` a vanished path is absent
from the key set while entries of still-existing paths keep their
lookup value, and after any successful tick a path that is gone from
the tick filesystem snapshot is absent from the table. -/
theorem c8_sweep_removes_deleted :
    (∀ (fs : FS) (t : List (String × Nat)) (p : String),
      fs.existsOnDisk p = false → p ∉ tableKeys (cleanupDeletedFiles fs t)) ∧
    (∀ (fs : FS) (t : List (String × Nat)) (p : String),
      fs.existsOnDisk p = true →
        lookupPath (cleanupDeletedFiles fs t) p = lookupPath t p) ∧
    (∀ (cf : String → Bool) (fs : FS) (paths : List String) (s s' : SupState)
      (acts : List SupAction) (p : String),
      tick cf fs paths s = Except.ok (s', acts) → fs.existsOnDisk p = false →
      p ∉ tableKeys s'.table) := by
  refine ⟨cleanup_not_mem, cleanup_lookup, ?_⟩
  intro cf fs paths s s' acts p h hex
  rcases tick_ok_parts cf fs paths s s' acts h with ⟨s2, _, ht⟩
  rw [ht]
  exact cleanup_not_mem fs s2.table p hex

/-- C8 witness: the theorem applied to a table holding the vanished path
"gone" and the surviving path "a.txt", both directly on the sweep and
through a full tick. -/
theorem c8_sweep_removes_deleted_witness :
    "gone" ∉ tableKeys (cleanupDeletedFiles fsSingle sGone.table) ∧
    lookupPath (cleanupDeletedFiles fsSingle sGone.table) "a.txt" =
      lookupPath sGone.table "a.txt" ∧
    "gone" ∉ tableKeys ({ table := [("a.txt", 0)], nextId := 6 } : SupState).table :=
  ⟨c8_sweep_removes_deleted.1 fsSingle sGone.table "gone" rfl,
   c8_sweep_removes_deleted.2.1 fsSingle sGone.table "a.txt" rfl,
   c8_sweep_removes_deleted.2.2 noCtorFail fsSingle ["a.txt"] sGone
     { table := [("a.txt", 0)], nextId := 6 } [] "gone" rfl rfl⟩

/-- C9 counterexample: the second event every monitor run emits carries
the literal type string "INIT - FILE OPEN", which is not one of the five
literal strings INIT, INIT_FILE_OPEN, MODIFY, ERROR_FILE_OPEN, CLOSE
named by the claim. -/
theorem c9_type_value_counterexample :
    monitorTrace { opens := true, lines := [] } "f" "topic" 0 [] =
      [initMsg "f" "topic", initFileOpenMsg "f" "topic"] ∧
    (initFileOpenMsg "f" "topic").type = "INIT - FILE OPEN" ∧
    (["INIT", "INIT_FILE_OPEN", "MODIFY", "ERROR_FILE_OPEN", "CLOSE"].contains
      (initFileOpenMsg "f" "topic").type) = false :=
  ⟨rfl, rfl, rfl⟩

/-- C9 (amended): the envelope builder produces a flat text record whose
fields appear with exactly the names and order timestamp, filePath,
kafkaTopic, message, type, with the inputs spliced in verbatim (no
escaping of embedded quote characters), and the type field of every
event the watcher emits — including the CLOSE event of the post-loop
code — is one of the five wire strings "INIT", "INIT - FILE OPEN",
"MODIFY", "ERROR - FILE OPEN", "CLOSE". -/
theorem c9_wire_format_amended :
    (∀ p l t ty ts : String,
      formatMessage p l t ty ts =
        "\x7b\"timestamp\": \"" ++ ts ++ "\", \"filePath\": \"" ++ p ++
          "\", \"kafkaTopic\": \"" ++ t ++ "\", \"message\": \"" ++ l ++
          "\", \"type\": \"" ++ ty ++ "\"\x7d") ∧
    (∀ (fs : FileState) (p t : String) (fuel : Nat)
      (batches : List (List INotifyEvent)),
      (monitorTrace fs p t fuel batches).all
        (fun m => wireTypes.contains m.type) = true) ∧
    (∀ p t : String, wireTypes.contains (closeMsg p t).type = true) := by
  refine ⟨fun p l t ty ts => rfl, ?_, fun p t => rfl⟩
  intro fs p t fuel batches
  rw [List.all_eq_true]
  intro m hm
  rcases monitorTrace_mem fs p t fuel batches m hm with rfl | rfl | rfl | ⟨l, rfl⟩ <;> rfl

/-- C10: every non-MODIFY event the watcher emits carries exactly the
single-character message " " — the placeholder the source passes at
every lifecycle send — and the CLOSE event of the post-loop code does
too. -/
theorem c10_lifecycle_message_single_space :
    (∀ (fs : FileState) (p t : String) (fuel : Nat)
      (batches : List (List INotifyEvent)),
      (monitorTrace fs p t fuel batches).all
        (fun m => m.type == "MODIFY" || m.message == " ") = true) ∧
    ∀ p t : String, (closeMsg p t).message = " " := by
  constructor
  · intro fs p t fuel batches
    rw [List.all_eq_true]
    intro m hm
    rcases monitorTrace_mem fs p t fuel batches m hm with rfl | rfl | rfl | ⟨l, rfl⟩ <;> rfl
  · intro p t
    rfl

end SparkySIEM
